import Mathlib

/-!
Shallow embedding of `src/SecurityMonitor.cpp` (the Event Capture &
Classification Engine): the Win32 message handler `WindowProc`, the drive
letter decoding loop, the device-interface classification, the registration
sequence of `main`, and the `GetMessage` run loop.

External OS calls (`WideCharToMultiByte`, `GetModuleFileNameW`,
`RegisterClassW`, `CreateWindowExW`, `AddClipboardFormatListener`,
`RegisterDeviceNotification`, the message queue) are modelled as an
environment record of oracles; everything else is translated from the source.
-/

namespace SecurityMonitor

/-- `DBT_DEVICEARRIVAL` from `dbt.h`. -/
def DBT_DEVICEARRIVAL : Nat := 0x8000

/-- `DBT_DEVICEREMOVECOMPLETE` from `dbt.h`. -/
def DBT_DEVICEREMOVECOMPLETE : Nat := 0x8004

/-- `DBT_DEVTYP_DEVICEINTERFACE` from `dbt.h`. -/
def DBT_DEVTYP_DEVICEINTERFACE : Nat := 5

/-- `DBT_DEVTYP_VOLUME` from `dbt.h`. -/
def DBT_DEVTYP_VOLUME : Nat := 2

/-- A 128-bit GUID: 32-bit `data1`, 16-bit `data2`, 16-bit `data3`, and the
eight bytes of `data4` (as in the Win32 `GUID` struct). `IsEqualGUID` is
structural equality. -/
structure Guid where
  data1 : Nat
  data2 : Nat
  data3 : Nat
  data4 : List Nat
deriving DecidableEq, Repr

/-- `DEFINE_GUID(GUID_DEVINTERFACE_USB_DEVICE, 0xA5DCBF10L, 0x6530, 0x11D2,
0x90, 0x1F, 0x00, 0xC0, 0x4F, 0xB9, 0x51, 0xED)` from the source, line 17. -/
def GUID_DEVINTERFACE_USB_DEVICE : Guid :=
  ⟨0xA5DCBF10, 0x6530, 0x11D2, [0x90, 0x1F, 0x00, 0xC0, 0x4F, 0xB9, 0x51, 0xED]⟩

/-- The payload behind the `DEV_BROADCAST_HDR` pointer (`lParam` of
`WM_DEVICECHANGE`).  The source reads `dbch_devicetype` from the header and
casts accordingly; here the constructor plays the role of the devicetype
discriminator.  `deviceInterface` carries `dbcc_classguid` and the wide-char
`dbcc_name` (a list of UTF-16 code units); `volume` carries `dbcv_unitmask`;
`other d` is any header whose `dbch_devicetype` is the value `d`, neither
`DBT_DEVTYP_DEVICEINTERFACE` nor `DBT_DEVTYP_VOLUME`. -/
inductive DevBroadcast where
  | deviceInterface (classguid : Guid) (name : List Nat)
  | volume (unitmask : Nat)
  | other (devicetype : Nat)
deriving DecidableEq, Repr

/-- The `WideCharToMultiByte` conversion pair of the source (one call to get
`size_needed`, one to convert).  The OS conversion itself is an oracle
`decode`; per the API contract the call fails (returns 0, so
`size_needed = 0` and the produced narrow string is empty) when the input
length is zero, and a failed conversion likewise leaves the empty string. -/
def wideCharToMultiByte (decode : List Nat → Option String) (w : List Nat) : String :=
  match (if w.length = 0 then none else decode w) with
  | some s => s
  | none => ""

/-- The drive-letter scan of the source (lines 153-160), one loop iteration
per constructor application: `for (char i = 0; i < 26; ++i) if (driveMask &
(1 << i)) { driveLetter = 'A' + i; break; }` with initial value `'?'`.  The
remaining iteration count is the first argument; `i` is the second. -/
def driveLetterScanAux (driveMask : Nat) : Nat → Nat → Char
  | 0, _ => '?'
  | fuel + 1, i =>
    if driveMask.testBit i then Char.ofNat (65 + i)
    else driveLetterScanAux driveMask fuel (i + 1)

/-- The full 26-iteration scan starting at bit 0. -/
def decodeDriveLetter (driveMask : Nat) : Char :=
  driveLetterScanAux driveMask 26 0

/-- The structured events the source actually emits from `WM_DEVICECHANGE`:
the four device-interface log lines collapse to `deviceInterface` with an
`arrival` tag and the `isUsbClass` discrimination, `volumeMounted` carries
the decoded drive letter ("Volume/Drive Mounted: X:\\"), and `volumeRemoved`
corresponds to the letter-free "Volume/Drive Removed." line. -/
inductive NotificationEvent where
  | deviceInterface (arrival : Bool) (isUsbClass : Bool) (devicePath : String)
  | volumeMounted (driveLetter : Char)
  | volumeRemoved
deriving DecidableEq, Repr

/-- The drive letter an emitted event carries, if any. -/
def carriedDriveLetter : NotificationEvent → Option Char
  | .volumeMounted c => some c
  | _ => none

/-- The `WM_DEVICECHANGE` classification logic of `WindowProc`
(source lines 109-173): the action-code guard, the null check on the header
pointer, the devicetype dispatch, the `IsEqualGUID` test against the USB
class id, the path conversion, and the unit-mask decode.  Paths that log
nothing return `none`. -/
def classifyDeviceChange (decode : List Nat → Option String)
    (wParam : Nat) (payload : Option DevBroadcast) : Option NotificationEvent :=
  if wParam = DBT_DEVICEARRIVAL ∨ wParam = DBT_DEVICEREMOVECOMPLETE then
    match payload with
    | none => none
    | some (.deviceInterface classguid name) =>
      let devPathA := wideCharToMultiByte decode name
      if classguid = GUID_DEVINTERFACE_USB_DEVICE then
        if wParam = DBT_DEVICEARRIVAL then
          some (.deviceInterface true true devPathA)
        else
          some (.deviceInterface false true devPathA)
      else
        if wParam = DBT_DEVICEARRIVAL then
          some (.deviceInterface true false devPathA)
        else
          some (.deviceInterface false false devPathA)
    | some (.volume unitmask) =>
      if wParam = DBT_DEVICEARRIVAL then
        some (.volumeMounted (decodeDriveLetter unitmask))
      else if wParam = DBT_DEVICEREMOVECOMPLETE then
        some .volumeRemoved
      else none
    | some (.other _) => none
  else none

/-- `classifyDeviceChange` instrumented with a count of how many times the
wide-path-to-UTF-8 conversion (`wideCharToMultiByte`) is executed on the
taken control path; identical branch structure otherwise. -/
def classifyDeviceChangeCount (decode : List Nat → Option String)
    (wParam : Nat) (payload : Option DevBroadcast) :
    Option NotificationEvent × Nat :=
  if wParam = DBT_DEVICEARRIVAL ∨ wParam = DBT_DEVICEREMOVECOMPLETE then
    match payload with
    | none => (none, 0)
    | some (.deviceInterface classguid name) =>
      let devPathA := wideCharToMultiByte decode name
      if classguid = GUID_DEVINTERFACE_USB_DEVICE then
        if wParam = DBT_DEVICEARRIVAL then
          (some (.deviceInterface true true devPathA), 1)
        else
          (some (.deviceInterface false true devPathA), 1)
      else
        if wParam = DBT_DEVICEARRIVAL then
          (some (.deviceInterface true false devPathA), 1)
        else
          (some (.deviceInterface false false devPathA), 1)
    | some (.volume unitmask) =>
      if wParam = DBT_DEVICEARRIVAL then
        (some (.volumeMounted (decodeDriveLetter unitmask)), 0)
      else if wParam = DBT_DEVICEREMOVECOMPLETE then
        (some .volumeRemoved, 0)
      else (none, 0)
    | some (.other _) => (none, 0)
  else (none, 0)

/-- The error-context argument of each `LogError` call site in the source
(the string that follows "ERROR in ").  The OS error code and its
`FormatMessageA` rendering are opaque text and are not modelled. -/
inductive ErrCtx where
  | getModuleFileNameW
  | registerClassW
  | createWindowExW
  | addClipboardFormatListener
  | registerDeviceNotification
deriving DecidableEq, Repr

/-- One `LogEvent` call site of the source, in order of appearance:
`windowDestroyed` = "Window destroyed, stopping message loop.", `clipboard` =
"Clipboard content changed (Copy/Paste detected).", `deviceEvent e` = the
device/volume line rendered from `e`, `started` = "--- SecurityMonitor
Started ---", `projectDirLine` = "Project Directory: ...", `msgWindowCreated`
= "Message-only window created successfully.", `clipboardListenerRegistered`
= "Successfully registered clipboard listener.", `clipboardWarning` =
"WARNING: Failed to register clipboard listener. ...",
`deviceNotifyRegistered` = "Successfully registered for device
notifications.", `deviceWarning` = "WARNING: Failed to register device
notifications. ...", `startingLoop` = "Starting message loop. Monitoring
active...", `stopping` = "--- SecurityMonitor Stopping ---", `errorIn c` =
the `LogError` line for context `c`. -/
inductive LogLine where
  | windowDestroyed
  | clipboard
  | deviceEvent (e : NotificationEvent)
  | started
  | projectDirLine
  | msgWindowCreated
  | clipboardListenerRegistered
  | clipboardWarning
  | deviceNotifyRegistered
  | deviceWarning
  | startingLoop
  | stopping
  | errorIn (c : ErrCtx)
deriving DecidableEq, Repr

/-- A window message dispatched to `WindowProc`: `destroy` = `WM_DESTROY`,
`clipboardUpdate` = `WM_CLIPBOARDUPDATE`, `deviceChange` = `WM_DEVICECHANGE`
with its `wParam` action code and the (possibly null) broadcast payload,
`other u` = any other message number `u`. -/
inductive Msg where
  | destroy
  | clipboardUpdate
  | deviceChange (wParam : Nat) (payload : Option DevBroadcast)
  | other (uMsg : Nat)
deriving DecidableEq, Repr

/-- What `GetMessage` hands the run loop on one iteration: an ordinary
message (dispatched to `WindowProc`), or `WM_QUIT` carrying the quit code,
on which `GetMessage` returns 0 and the loop exits. -/
inductive QMsg where
  | msg (m : Msg)
  | quit (code : Nat)
deriving DecidableEq, Repr

/-- The value `WindowProc` returns: an explicit `LRESULT` (`handled r`:
`return 0` / `return TRUE`), or deferral to `DefWindowProc`. -/
inductive WndResult where
  | handled (ret : Int)
  | defWindowProc
deriving DecidableEq, Repr

/-- One `WindowProc` invocation's observable effects: the `LogEvent` lines it
produces, its return value, and the code of a `PostQuitMessage` call if it
makes one. -/
structure WndOut where
  logs : List LogLine
  ret : WndResult
  postQuit : Option Nat
deriving DecidableEq, Repr

/-- `WindowProc` (source lines 98-179).  `WM_DESTROY` logs, posts quit code
0 and returns 0; `WM_CLIPBOARDUPDATE` logs and returns 0; `WM_DEVICECHANGE`
logs the classification result (if any) and returns `TRUE` (1); every other
message goes to `DefWindowProc`. -/
def windowProc (decode : List Nat → Option String) : Msg → WndOut
  | .destroy => ⟨[.windowDestroyed], .handled 0, some 0⟩
  | .clipboardUpdate => ⟨[.clipboard], .handled 0, none⟩
  | .deviceChange wParam payload =>
    ⟨(classifyDeviceChange decode wParam payload).toList.map LogLine.deviceEvent,
     .handled 1, none⟩
  | .other _ => ⟨[], .defWindowProc, none⟩

/-- The messages `GetMessage` delivers before the first `WM_QUIT`. -/
def beforeQuit : List QMsg → List Msg
  | [] => []
  | .quit _ :: _ => []
  | .msg m :: rest => m :: beforeQuit rest

/-- The quit code of the first `WM_QUIT` in the delivery stream, if any. -/
def firstQuit : List QMsg → Option Nat
  | [] => none
  | .quit c :: _ => some c
  | .msg _ :: rest => firstQuit rest

/-- The `GetMessage`/`DispatchMessage` loop (source lines 290-293): each
iteration retrieves one message; a `WM_QUIT` ends the loop (its code becomes
`msg.wParam`); any other message is dispatched to `WindowProc`, whose log
lines are appended, before the next message is retrieved.  The result is the
loop's log output and `some quitCode`, or `none` if the stream is exhausted
without a `WM_QUIT` (the loop still blocking). -/
def runLoop (decode : List Nat → Option String) : List QMsg → List LogLine × Option Nat
  | [] => ([], none)
  | .quit c :: _ => ([], some c)
  | .msg m :: rest =>
    ((windowProc decode m).logs ++ (runLoop decode rest).1, (runLoop decode rest).2)

/-- Outcomes of the OS calls `main` makes, plus the message stream the OS
delivers: `exePath` is the `GetModuleFileNameW` result (`none` = failure),
`currentPathThrows` says whether the `std::filesystem::current_path()`
fallback throws when reached, the four `...Ok` flags are the success of the
corresponding registration/creation calls, `messages` is the `GetMessage`
stream, and `decode` is the `WideCharToMultiByte` oracle. -/
structure Env where
  exePath : Option (List Nat)
  currentPathThrows : Bool
  openLogOk : Bool
  registerClassOk : Bool
  createWindowOk : Bool
  addClipboardListenerOk : Bool
  registerDeviceNotificationOk : Bool
  messages : List QMsg
  decode : List Nat → Option String

/-- The `LogEvent` lines produced while resolving the executable directory
(`GetExecutableDirectory`, source lines 82-94): on `GetModuleFileNameW`
failure it logs one `LogError` line and falls back to the current
directory. -/
def resolveLogPathLogs (env : Env) : List LogLine :=
  match env.exePath with
  | some _ => []
  | none => [.errorIn .getModuleFileNameW]

/-- Whether the log path is resolved: directly from the executable path, or
through the `current_path()` fallback; it fails only when
`GetModuleFileNameW` fails and the fallback throws (the exception is caught
in `main`, which returns 1). -/
def resolveLogPathOk (env : Env) : Bool :=
  match env.exePath with
  | some _ => true
  | none => !env.currentPathThrows

/-- `main` (source lines 208-310): resolve the log path (exit 1 on
exception), open the log (exit 1 on failure), log the startup banner,
register the window class and create the message-only window (exit 1 on
either failure, after the `LogError` line), attempt the clipboard and device
registrations independently (warning lines on failure, never fatal), log the
loop banner, run the message loop, and on a quit log the stopping banner and
the `WM_DESTROY` line that `DestroyWindow` triggers, returning the quit
code.  The result is the full `LogEvent` stream and `some exitCode`
(`none` when the loop never receives `WM_QUIT`). -/
def mainModel (env : Env) : List LogLine × Option Nat :=
  let l0 := resolveLogPathLogs env
  if resolveLogPathOk env then
    if env.openLogOk then
      let l1 := l0 ++ [LogLine.started, LogLine.projectDirLine]
      if env.registerClassOk then
        if env.createWindowOk then
          let l2 := l1 ++ [LogLine.msgWindowCreated]
          let l3 := l2 ++ (if env.addClipboardListenerOk then
              [LogLine.clipboardListenerRegistered]
            else
              [LogLine.errorIn .addClipboardFormatListener, LogLine.clipboardWarning])
          let l4 := l3 ++ (if env.registerDeviceNotificationOk then
              [LogLine.deviceNotifyRegistered]
            else
              [LogLine.errorIn .registerDeviceNotification, LogLine.deviceWarning])
          let l5 := l4 ++ [LogLine.startingLoop]
          let r := runLoop env.decode env.messages
          (l5 ++ r.1 ++ (if r.2.isSome then [LogLine.stopping, LogLine.windowDestroyed] else []),
           r.2)
        else (l1 ++ [LogLine.errorIn .createWindowExW], some 1)
      else (l1 ++ [LogLine.errorIn .registerClassW], some 1)
    else (l0, some 1)
  else (l0, some 1)

/-! ### Helper lemmas about the drive-letter scan -/

lemma driveLetterScanAux_of_clear (driveMask : Nat) :
    ∀ fuel k, (∀ j, k ≤ j → j < k + fuel → driveMask.testBit j = false) →
      driveLetterScanAux driveMask fuel k = '?' := by
  intro fuel
  induction fuel with
  | zero => intro k _; rfl
  | succ n ih =>
    intro k hclear
    have hk : driveMask.testBit k = false := hclear k le_rfl (by omega)
    simp only [driveLetterScanAux, hk, Bool.false_eq_true, if_false]
    exact ih (k + 1) (fun j hj1 hj2 => hclear j (by omega) (by omega))

lemma driveLetterScanAux_of_lowest (driveMask : Nat) :
    ∀ fuel k i, k ≤ i → i < k + fuel → driveMask.testBit i = true →
      (∀ j, k ≤ j → j < i → driveMask.testBit j = false) →
      driveLetterScanAux driveMask fuel k = Char.ofNat (65 + i) := by
  intro fuel
  induction fuel with
  | zero => intro k i hk hi _ _; omega
  | succ n ih =>
    intro k i hk hi hbit hlow
    by_cases hkb : driveMask.testBit k = true
    · have hki : k = i := by
        by_contra hne
        have hlt : k < i := lt_of_le_of_ne hk hne
        have hf := hlow k le_rfl hlt
        rw [hf] at hkb
        exact Bool.false_ne_true hkb
      subst hki
      simp [driveLetterScanAux, hkb]
    · have hkb2 : driveMask.testBit k = false := by
        simpa using hkb
      have hki : k < i := by
        rcases Nat.lt_or_ge k i with h | h
        · exact h
        · have hik : k = i := Nat.le_antisymm hk h
          rw [hik, hbit] at hkb2
          exact absurd hkb2 (by simp)
      simp only [driveLetterScanAux, hkb2, Bool.false_eq_true, if_false]
      exact ih (k + 1) i (by omega) (by omega) hbit
        (fun j hj1 hj2 => hlow j (by omega) hj2)

/-! ### Claim theorems about the classifier -/

/-- C1: for every device-interface notification with arrival or removal
action code, classification emits a device-interface event (and the sink
logs it) whose `isUsbClass` flag is true iff the 128-bit class identifier
equals `GUID_DEVINTERFACE_USB_DEVICE`, and whose arrival/removal tag
matches the action code. -/
theorem usb_class_discrimination (decode : List Nat → Option String)
    (wParam : Nat) (classguid : Guid) (name : List Nat)
    (hw : wParam = DBT_DEVICEARRIVAL ∨ wParam = DBT_DEVICEREMOVECOMPLETE) :
    ∃ arrival isUsb path,
      classifyDeviceChange decode wParam
          (some (.deviceInterface classguid name)) =
        some (.deviceInterface arrival isUsb path) ∧
      (windowProc decode
          (.deviceChange wParam (some (.deviceInterface classguid name)))).logs =
        [LogLine.deviceEvent (.deviceInterface arrival isUsb path)] ∧
      (isUsb = true ↔ classguid = GUID_DEVINTERFACE_USB_DEVICE) ∧
      (arrival = true ↔ wParam = DBT_DEVICEARRIVAL) := by
  rcases hw with ha | ha <;> subst ha <;>
    by_cases hg : classguid = GUID_DEVINTERFACE_USB_DEVICE
  · exact ⟨true, true, wideCharToMultiByte decode name,
      by simp [classifyDeviceChange, hg], by simp [windowProc, classifyDeviceChange, hg],
      by simp [hg], by simp⟩
  · exact ⟨true, false, wideCharToMultiByte decode name,
      by simp [classifyDeviceChange, hg], by simp [windowProc, classifyDeviceChange, hg],
      by simp [hg], by simp⟩
  · exact ⟨false, true, wideCharToMultiByte decode name,
      by simp [classifyDeviceChange, hg, DBT_DEVICEARRIVAL, DBT_DEVICEREMOVECOMPLETE],
      by simp [windowProc, classifyDeviceChange, hg, DBT_DEVICEARRIVAL, DBT_DEVICEREMOVECOMPLETE],
      by simp [hg],
      by simp [DBT_DEVICEARRIVAL, DBT_DEVICEREMOVECOMPLETE]⟩
  · exact ⟨false, false, wideCharToMultiByte decode name,
      by simp [classifyDeviceChange, hg, DBT_DEVICEARRIVAL, DBT_DEVICEREMOVECOMPLETE],
      by simp [windowProc, classifyDeviceChange, hg, DBT_DEVICEARRIVAL, DBT_DEVICEREMOVECOMPLETE],
      by simp [hg],
      by simp [DBT_DEVICEARRIVAL, DBT_DEVICEREMOVECOMPLETE]⟩

/-- Witness for C1 at a concrete USB arrival notification. -/
theorem usb_class_discrimination_witness :
    ∃ arrival isUsb path,
      classifyDeviceChange (fun _ => none) DBT_DEVICEARRIVAL
          (some (.deviceInterface GUID_DEVINTERFACE_USB_DEVICE [92, 92])) =
        some (.deviceInterface arrival isUsb path) ∧
      (windowProc (fun _ => none)
          (.deviceChange DBT_DEVICEARRIVAL
            (some (.deviceInterface GUID_DEVINTERFACE_USB_DEVICE [92, 92])))).logs =
        [LogLine.deviceEvent (.deviceInterface arrival isUsb path)] ∧
      (isUsb = true ↔ GUID_DEVINTERFACE_USB_DEVICE = GUID_DEVINTERFACE_USB_DEVICE) ∧
      (arrival = true ↔ DBT_DEVICEARRIVAL = DBT_DEVICEARRIVAL) :=
  usb_class_discrimination (fun _ => none) DBT_DEVICEARRIVAL
    GUID_DEVINTERFACE_USB_DEVICE [92, 92] (Or.inl rfl)

/-- C2: for every 26-bit volume unit mask, the decoded letter is determined
by the lowest set bit: an all-zero mask decodes to the sentinel `?`, and if
the lowest set bit is at 0-indexed position `i` (whether or not other bits
are set) the decoded letter is `'A' + i`. -/
theorem volume_unit_mask_decode (mask : Nat) (hmask : mask < 2 ^ 26) :
    (mask = 0 → decodeDriveLetter mask = '?') ∧
    (∀ i, i < 26 → mask.testBit i = true →
      (∀ j, j < i → mask.testBit j = false) →
      decodeDriveLetter mask = Char.ofNat (65 + i)) := by
  constructor
  · intro h
    subst h
    exact driveLetterScanAux_of_clear 0 26 0 (fun j _ _ => Nat.zero_testBit j)
  · intro i hi hbit hlow
    exact driveLetterScanAux_of_lowest mask 26 0 i (Nat.zero_le i) (by omega) hbit
      (fun j _ hj => hlow j hj)

/-- Witness for C2: mask `0b100` decodes to `C`, and the all-zero mask
decodes to `?`. -/
theorem volume_unit_mask_decode_witness :
    decodeDriveLetter 4 = 'C' ∧ decodeDriveLetter 0 = '?' := by
  constructor
  · have h := (volume_unit_mask_decode 4 (by norm_num)).2 2 (by norm_num)
      (by decide) (by decide)
    rw [h]
  · exact (volume_unit_mask_decode 0 (by norm_num)).1 rfl

/-- C3: classification is total and single-valued: every `WM_DEVICECHANGE`
input (any action code, any payload including a null header) produces at
most one log line, and maps to either no event or exactly one event. -/
theorem classification_total (decode : List Nat → Option String)
    (wParam : Nat) (payload : Option DevBroadcast) :
    (windowProc decode (.deviceChange wParam payload)).logs.length ≤ 1 ∧
    (classifyDeviceChange decode wParam payload = none ∨
      ∃! e, classifyDeviceChange decode wParam payload = some e) := by
  constructor
  · simp only [windowProc]
    cases classifyDeviceChange decode wParam payload <;> simp
  · cases h : classifyDeviceChange decode wParam payload with
    | none => exact Or.inl rfl
    | some e => exact Or.inr ⟨e, rfl, fun y hy => (Option.some.inj hy).symm⟩

/-- Counterexample to C4 as stated: an arrival notification whose
devicetype is neither `DBT_DEVTYP_DEVICEINTERFACE` nor `DBT_DEVTYP_VOLUME`
(here devicetype 0, `DBT_DEVTYP_OEM`) produces no event and nothing is
logged — no `Unrecognized` event exists in the code. -/
theorem unknown_devicetype_cex :
    classifyDeviceChange (fun _ => none) DBT_DEVICEARRIVAL (some (.other 0)) = none ∧
    (windowProc (fun _ => none)
      (.deviceChange DBT_DEVICEARRIVAL (some (.other 0)))).logs = [] :=
  ⟨rfl, rfl⟩

/-- C4 (amended): for every device-change notification whose action code is
arrival or removal but whose devicetype is neither `DEVICEINTERFACE` nor
`VOLUME`, the classifier emits no event and nothing is logged. -/
theorem unknown_devicetype_silent (decode : List Nat → Option String)
    (wParam d : Nat)
    (hw : wParam = DBT_DEVICEARRIVAL ∨ wParam = DBT_DEVICEREMOVECOMPLETE) :
    classifyDeviceChange decode wParam (some (.other d)) = none ∧
    (windowProc decode (.deviceChange wParam (some (.other d)))).logs = [] := by
  have h1 : classifyDeviceChange decode wParam (some (.other d)) = none := by
    unfold classifyDeviceChange
    rw [if_pos hw]
  exact ⟨h1, by simp [windowProc, h1]⟩

/-- Witness for the amended C4 at a concrete OEM-devicetype removal. -/
theorem unknown_devicetype_silent_witness :
    classifyDeviceChange (fun _ => none) DBT_DEVICEREMOVECOMPLETE
      (some (.other 0)) = none ∧
    (windowProc (fun _ => none)
      (.deviceChange DBT_DEVICEREMOVECOMPLETE (some (.other 0)))).logs = [] :=
  unknown_devicetype_silent (fun _ => none) DBT_DEVICEREMOVECOMPLETE 0 (Or.inr rfl)

/-- Counterexample to C5 as stated: a volume removal notification with unit
mask `0b100` emits `volumeRemoved`, which carries no drive letter at all —
not the decoded letter `C` the claim predicts for the removal case. -/
theorem volume_removal_no_letter_cex :
    classifyDeviceChange (fun _ => none) DBT_DEVICEREMOVECOMPLETE
      (some (.volume 4)) = some NotificationEvent.volumeRemoved ∧
    decodeDriveLetter 4 = 'C' ∧
    carriedDriveLetter NotificationEvent.volumeRemoved ≠
      some (decodeDriveLetter 4) := by
  refine ⟨rfl, by decide, ?_⟩
  intro h
  exact Option.noConfusion h

/-- C5 (amended): a volume arrival decodes the 26-bit unit mask
(lowest-set-bit-wins, sentinel `?` when no bit is set) and emits
`volumeMounted` carrying that letter; a volume removal emits
`volumeRemoved`, which carries no drive letter. -/
theorem volume_classification (decode : List Nat → Option String)
    (wParam unitmask : Nat) :
    (wParam = DBT_DEVICEARRIVAL →
      classifyDeviceChange decode wParam (some (.volume unitmask)) =
        some (.volumeMounted (decodeDriveLetter unitmask)) ∧
      carriedDriveLetter (.volumeMounted (decodeDriveLetter unitmask)) =
        some (decodeDriveLetter unitmask)) ∧
    (wParam = DBT_DEVICEREMOVECOMPLETE →
      classifyDeviceChange decode wParam (some (.volume unitmask)) =
        some NotificationEvent.volumeRemoved ∧
      carriedDriveLetter NotificationEvent.volumeRemoved = none) := by
  constructor
  · intro ha
    subst ha
    exact ⟨by simp [classifyDeviceChange], rfl⟩
  · intro ha
    subst ha
    refine ⟨?_, rfl⟩
    simp [classifyDeviceChange, DBT_DEVICEARRIVAL, DBT_DEVICEREMOVECOMPLETE]

/-- Witness for the amended C5 at unit mask `0b100`: arrival carries `C`,
removal carries nothing. -/
theorem volume_classification_witness :
    (classifyDeviceChange (fun _ => none) DBT_DEVICEARRIVAL (some (.volume 4)) =
        some (.volumeMounted (decodeDriveLetter 4)) ∧
      carriedDriveLetter (.volumeMounted (decodeDriveLetter 4)) =
        some (decodeDriveLetter 4)) ∧
    (classifyDeviceChange (fun _ => none) DBT_DEVICEREMOVECOMPLETE
        (some (.volume 4)) = some NotificationEvent.volumeRemoved ∧
      carriedDriveLetter NotificationEvent.volumeRemoved = none) :=
  ⟨(volume_classification (fun _ => none) DBT_DEVICEARRIVAL 4).1 rfl,
   (volume_classification (fun _ => none) DBT_DEVICEREMOVECOMPLETE 4).2 rfl⟩

/-- The narrow path is empty whenever the wide source has length zero or the
conversion oracle fails. -/
lemma wideCharToMultiByte_empty (decode : List Nat → Option String)
    (name : List Nat) (h : name.length = 0 ∨ decode name = none) :
    wideCharToMultiByte decode name = "" := by
  by_cases h0 : name.length = 0
  · simp [wideCharToMultiByte, h0]
  · rcases h with h | h
    · exact absurd h h0
    · simp [wideCharToMultiByte, h0, h]

/-- C9: for every device-interface notification with arrival or removal
action code, the wide device path is converted exactly once on the taken
control path, the instrumented classifier agrees with the plain one, and a
zero-length source or a failed conversion yields an event with the empty
path rather than suppressing the event. -/
theorem device_path_decoded_once (decode : List Nat → Option String)
    (wParam : Nat) (classguid : Guid) (name : List Nat)
    (hw : wParam = DBT_DEVICEARRIVAL ∨ wParam = DBT_DEVICEREMOVECOMPLETE) :
    (classifyDeviceChangeCount decode wParam
        (some (.deviceInterface classguid name))).2 = 1 ∧
    (classifyDeviceChangeCount decode wParam
        (some (.deviceInterface classguid name))).1 =
      classifyDeviceChange decode wParam (some (.deviceInterface classguid name)) ∧
    ((name.length = 0 ∨ decode name = none) →
      ∃ arrival isUsb,
        classifyDeviceChange decode wParam
            (some (.deviceInterface classguid name)) =
          some (.deviceInterface arrival isUsb "")) := by
  have hne : wideCharToMultiByte decode name = wideCharToMultiByte decode name := rfl
  refine ⟨?_, ?_, ?_⟩
  · unfold classifyDeviceChangeCount
    rw [if_pos hw]
    by_cases hg : classguid = GUID_DEVINTERFACE_USB_DEVICE <;>
      by_cases ha : wParam = DBT_DEVICEARRIVAL <;> simp [hg, ha]
  · unfold classifyDeviceChangeCount classifyDeviceChange
    rw [if_pos hw, if_pos hw]
    by_cases hg : classguid = GUID_DEVINTERFACE_USB_DEVICE <;>
      by_cases ha : wParam = DBT_DEVICEARRIVAL <;> simp [hg, ha]
  · intro hempty
    have hpath := wideCharToMultiByte_empty decode name hempty
    unfold classifyDeviceChange
    rw [if_pos hw]
    by_cases hg : classguid = GUID_DEVINTERFACE_USB_DEVICE <;>
      by_cases ha : wParam = DBT_DEVICEARRIVAL <;>
        simp [hg, ha, hpath]

/-- Witness for C9 at a concrete removal notification whose conversion
oracle fails. -/
theorem device_path_decoded_once_witness :
    (classifyDeviceChangeCount (fun _ => none) DBT_DEVICEREMOVECOMPLETE
        (some (.deviceInterface GUID_DEVINTERFACE_USB_DEVICE [85]))).2 = 1 ∧
    (classifyDeviceChangeCount (fun _ => none) DBT_DEVICEREMOVECOMPLETE
        (some (.deviceInterface GUID_DEVINTERFACE_USB_DEVICE [85]))).1 =
      classifyDeviceChange (fun _ => none) DBT_DEVICEREMOVECOMPLETE
        (some (.deviceInterface GUID_DEVINTERFACE_USB_DEVICE [85])) ∧
    (((85 : Nat) :: []).length = 0 ∨ (fun (_ : List Nat) => (none : Option String)) [85] = none →
      ∃ arrival isUsb,
        classifyDeviceChange (fun _ => none) DBT_DEVICEREMOVECOMPLETE
            (some (.deviceInterface GUID_DEVINTERFACE_USB_DEVICE [85])) =
          some (.deviceInterface arrival isUsb "")) :=
  device_path_decoded_once (fun _ => none) DBT_DEVICEREMOVECOMPLETE
    GUID_DEVINTERFACE_USB_DEVICE [85] (Or.inr rfl)

/-- C10: every `WM_DEVICECHANGE` message — whatever its action code or
payload, including those that emit no event — returns `TRUE` (1), and the
only messages deferred to `DefWindowProc` are those outside the
destroy/clipboard/device-change set. -/
theorem devicechange_always_handled (decode : List Nat → Option String) :
    (∀ wParam payload,
      (windowProc decode (.deviceChange wParam payload)).ret = .handled 1) ∧
    (∀ m, (windowProc decode m).ret = WndResult.defWindowProc ↔
      ∃ u, m = Msg.other u) := by
  constructor
  · intro wParam payload
    rfl
  · intro m
    cases m <;> simp [windowProc]

/-! ### Helper lemmas about the run loop and `main` -/

lemma runLoop_eq (decode : List Nat → Option String) :
    ∀ msgs, runLoop decode msgs =
      ((beforeQuit msgs).flatMap (fun m => (windowProc decode m).logs),
       firstQuit msgs) := by
  intro msgs
  induction msgs with
  | nil => rfl
  | cons q rest ih =>
    cases q with
    | quit c => rfl
    | msg m => simp [runLoop, beforeQuit, firstQuit, ih]

/-- Number of clipboard-changed lines in a log. -/
def countClip (ls : List LogLine) : Nat :=
  ls.countP (fun l => decide (l = LogLine.clipboard))

/-- Number of device-category warning lines in a log. -/
def countDevWarn (ls : List LogLine) : Nat :=
  ls.countP (fun l => decide (l = LogLine.deviceWarning))

/-- Number of clipboard-update messages in a message list. -/
def countClipMsgs (ms : List Msg) : Nat :=
  ms.countP (fun m => decide (m = Msg.clipboardUpdate))

lemma countClip_append (a b : List LogLine) :
    countClip (a ++ b) = countClip a + countClip b :=
  List.countP_append _ _ _

lemma countDevWarn_append (a b : List LogLine) :
    countDevWarn (a ++ b) = countDevWarn a + countDevWarn b :=
  List.countP_append _ _ _

lemma windowProc_countClip (decode : List Nat → Option String) (m : Msg) :
    countClip (windowProc decode m).logs =
      (if m = Msg.clipboardUpdate then 1 else 0) := by
  cases m with
  | destroy => rfl
  | clipboardUpdate => rfl
  | other u => rfl
  | deviceChange w p =>
    simp only [windowProc]
    cases classifyDeviceChange decode w p <;> simp [countClip]

lemma windowProc_countDevWarn (decode : List Nat → Option String) (m : Msg) :
    countDevWarn (windowProc decode m).logs = 0 := by
  cases m with
  | destroy => rfl
  | clipboardUpdate => rfl
  | other u => rfl
  | deviceChange w p =>
    simp only [windowProc]
    cases classifyDeviceChange decode w p <;> simp [countDevWarn]

lemma runLoop_countClip (decode : List Nat → Option String) :
    ∀ msgs, countClip (runLoop decode msgs).1 = countClipMsgs (beforeQuit msgs) := by
  intro msgs
  induction msgs with
  | nil => rfl
  | cons q rest ih =>
    cases q with
    | quit c => rfl
    | msg m =>
      show countClip ((windowProc decode m).logs ++ (runLoop decode rest).1) =
        countClipMsgs (m :: beforeQuit rest)
      rw [countClip_append, windowProc_countClip, ih]
      simp [countClipMsgs, List.countP_cons]
      by_cases hm : m = Msg.clipboardUpdate <;> simp [hm, Nat.add_comm]

lemma runLoop_countDevWarn (decode : List Nat → Option String) :
    ∀ msgs, countDevWarn (runLoop decode msgs).1 = 0 := by
  intro msgs
  induction msgs with
  | nil => rfl
  | cons q rest ih =>
    cases q with
    | quit c => rfl
    | msg m =>
      show countDevWarn ((windowProc decode m).logs ++ (runLoop decode rest).1) = 0
      rw [countDevWarn_append, windowProc_countDevWarn, ih]

lemma startingLoop_not_mem_resolve (env : Env) :
    LogLine.startingLoop ∉ resolveLogPathLogs env := by
  cases h : env.exePath <;> simp [resolveLogPathLogs, h]

lemma mainModel_success (env : Env)
    (h1 : resolveLogPathOk env = true) (h2 : env.openLogOk = true)
    (h3 : env.registerClassOk = true) (h4 : env.createWindowOk = true) :
    mainModel env =
      (resolveLogPathLogs env ++
        [LogLine.started, LogLine.projectDirLine, LogLine.msgWindowCreated] ++
        (if env.addClipboardListenerOk then [LogLine.clipboardListenerRegistered]
         else [LogLine.errorIn .addClipboardFormatListener, LogLine.clipboardWarning]) ++
        (if env.registerDeviceNotificationOk then [LogLine.deviceNotifyRegistered]
         else [LogLine.errorIn .registerDeviceNotification, LogLine.deviceWarning]) ++
        [LogLine.startingLoop] ++ (runLoop env.decode env.messages).1 ++
        (if (runLoop env.decode env.messages).2.isSome then
          [LogLine.stopping, LogLine.windowDestroyed] else []),
       (runLoop env.decode env.messages).2) := by
  simp [mainModel, h1, h2, h3, h4, List.append_assoc]

/-! ### Claim theorems about `main` and the run loop -/

/-- C6: when device-notification registration fails but the clipboard
listener registers, the engine does not terminate at startup: exactly one
warning line for the device category appears in the log, the run-loop
banner is reached, the exit status is whatever the run loop later decides,
and every clipboard-change message delivered before the quit still produces
its clipboard log line. -/
theorem degraded_device_registration (env : Env)
    (h1 : resolveLogPathOk env = true) (h2 : env.openLogOk = true)
    (h3 : env.registerClassOk = true) (h4 : env.createWindowOk = true)
    (h5 : env.addClipboardListenerOk = true)
    (h6 : env.registerDeviceNotificationOk = false) :
    countDevWarn (mainModel env).1 = 1 ∧
    LogLine.startingLoop ∈ (mainModel env).1 ∧
    (mainModel env).2 = (runLoop env.decode env.messages).2 ∧
    countClip (mainModel env).1 = countClipMsgs (beforeQuit env.messages) := by
  rw [mainModel_success env h1 h2 h3 h4]
  refine ⟨?_, ?_, rfl, ?_⟩
  · simp only [h5, h6, if_true, Bool.false_eq_true, if_false,
      countDevWarn_append, runLoop_countDevWarn]
    have hres : countDevWarn (resolveLogPathLogs env) = 0 := by
      cases h : env.exePath <;> simp [resolveLogPathLogs, h, countDevWarn]
    have htail : countDevWarn
        (if (runLoop env.decode env.messages).2.isSome then
          [LogLine.stopping, LogLine.windowDestroyed] else []) = 0 := by
      cases (runLoop env.decode env.messages).2 <;> simp [countDevWarn]
    have hb : countDevWarn
        [LogLine.started, LogLine.projectDirLine, LogLine.msgWindowCreated] = 0 := rfl
    have hc : countDevWarn [LogLine.clipboardListenerRegistered] = 0 := rfl
    have hd : countDevWarn
        [LogLine.errorIn ErrCtx.registerDeviceNotification, LogLine.deviceWarning] = 1 := rfl
    have he : countDevWarn [LogLine.startingLoop] = 0 := rfl
    rw [hres, hb, hc, hd, he, htail]
  · simp
  · simp only [h5, h6, if_true, Bool.false_eq_true, if_false,
      countClip_append, runLoop_countClip]
    have hres : countClip (resolveLogPathLogs env) = 0 := by
      cases h : env.exePath <;> simp [resolveLogPathLogs, h, countClip]
    have htail : countClip
        (if (runLoop env.decode env.messages).2.isSome then
          [LogLine.stopping, LogLine.windowDestroyed] else []) = 0 := by
      cases (runLoop env.decode env.messages).2 <;> simp [countClip]
    have hb : countClip
        [LogLine.started, LogLine.projectDirLine, LogLine.msgWindowCreated] = 0 := rfl
    have hc : countClip [LogLine.clipboardListenerRegistered] = 0 := rfl
    have hd : countClip
        [LogLine.errorIn ErrCtx.registerDeviceNotification, LogLine.deviceWarning] = 0 := rfl
    have he : countClip [LogLine.startingLoop] = 0 := rfl
    rw [hres, hb, hc, hd, he, htail]
    omega

/-- Concrete environment for the C6 witness: clipboard registration
succeeds, device registration fails, and the OS then delivers one clipboard
change, one USB arrival, and a quit. -/
def envDegraded : Env :=
  ⟨some [67], false, true, true, true, true, false,
   [QMsg.msg Msg.clipboardUpdate,
    QMsg.msg (Msg.deviceChange DBT_DEVICEARRIVAL
      (some (.deviceInterface GUID_DEVINTERFACE_USB_DEVICE [85]))),
    QMsg.quit 0],
   fun _ => none⟩

/-- Witness for C6 at `envDegraded`. -/
theorem degraded_device_registration_witness :
    countDevWarn (mainModel envDegraded).1 = 1 ∧
    LogLine.startingLoop ∈ (mainModel envDegraded).1 ∧
    (mainModel envDegraded).2 = (runLoop envDegraded.decode envDegraded.messages).2 ∧
    countClip (mainModel envDegraded).1 = countClipMsgs (beforeQuit envDegraded.messages) :=
  degraded_device_registration envDegraded rfl rfl rfl rfl rfl rfl

/-- C7: each fatal startup failure (log path unresolvable, log file
unopenable, window-class registration failure, window creation failure)
makes `main` exit with code 1 before the run-loop banner is ever logged;
conversely, with startup fully successful, a quit signal carrying code 0
makes `main` exit with code 0. -/
theorem startup_failure_exit (env : Env) :
    ((resolveLogPathOk env = false ∨ env.openLogOk = false ∨
      env.registerClassOk = false ∨ env.createWindowOk = false) →
      (mainModel env).2 = some 1 ∧ LogLine.startingLoop ∉ (mainModel env).1) ∧
    ((resolveLogPathOk env = true ∧ env.openLogOk = true ∧
      env.registerClassOk = true ∧ env.createWindowOk = true ∧
      firstQuit env.messages = some 0) → (mainModel env).2 = some 0) := by
  constructor
  · intro h
    by_cases p1 : resolveLogPathOk env
    · by_cases p2 : env.openLogOk
      · by_cases p3 : env.registerClassOk
        · by_cases p4 : env.createWindowOk
          · simp [p1, p2, p3, p4] at h
          · simp only [mainModel, p1, p2, p3, p4, if_true, if_false]
            refine ⟨rfl, ?_⟩
            simp [startingLoop_not_mem_resolve env]
        · simp only [mainModel, p1, p2, p3, if_true, if_false]
          refine ⟨rfl, ?_⟩
          simp [startingLoop_not_mem_resolve env]
      · simp only [mainModel, p1, p2, if_true, if_false]
        exact ⟨rfl, startingLoop_not_mem_resolve env⟩
    · simp only [mainModel, p1, if_false]
      exact ⟨rfl, startingLoop_not_mem_resolve env⟩
  · rintro ⟨h1, h2, h3, h4, hq⟩
    rw [mainModel_success env h1 h2 h3 h4]
    show (runLoop env.decode env.messages).2 = some 0
    rw [runLoop_eq]
    exact hq

/-- Concrete failing environment for the C7 witness: the log file cannot be
opened. -/
def envNoLog : Env :=
  ⟨some [67], false, false, true, true, true, true, [QMsg.quit 0], fun _ => none⟩

/-- Concrete successful environment for the C7 witness: startup succeeds and
the OS delivers a quit signal with code 0. -/
def envCleanQuit : Env :=
  ⟨some [67], false, true, true, true, true, true,
   [QMsg.msg Msg.clipboardUpdate, QMsg.quit 0], fun _ => none⟩

/-- Witness for C7: `envNoLog` exits 1 without reaching the loop banner;
`envCleanQuit` exits 0. -/
theorem startup_failure_exit_witness :
    ((mainModel envNoLog).2 = some 1 ∧
      LogLine.startingLoop ∉ (mainModel envNoLog).1) ∧
    (mainModel envCleanQuit).2 = some 0 :=
  ⟨(startup_failure_exit envNoLog).1 (Or.inr (Or.inl rfl)),
   (startup_failure_exit envCleanQuit).2 ⟨rfl, rfl, rfl, rfl, rfl⟩⟩

/-- C8: the run loop is strictly sequential and order preserving: for every
delivered message stream, its log output is exactly the concatenation, in
delivery order, of the log lines of each message before the first quit —
each notification is fully classified and logged before the next one is
retrieved, so no reordering or interleaving is possible. -/
theorem log_order_preserved (decode : List Nat → Option String)
    (msgs : List QMsg) :
    runLoop decode msgs =
      ((beforeQuit msgs).flatMap (fun m => (windowProc decode m).logs),
       firstQuit msgs) :=
  runLoop_eq decode msgs

end SecurityMonitor
